import Mathlib

/-!
Verification of the EchoPrint AI target-detection engine, embedded from
`src/lib/detection/target-detector.ts` together with the profile catalog
of `src/lib/targets/profiles.ts`.

The engine is pure: it reads a fingerprint-data bundle, an optional page
context and a static catalog of target profiles, and produces detection
results.  JavaScript numbers in this code hold small non-negative
integers (signal counts, weighted sums, percentages) modelled as `Nat`,
except inside the confidence computation
`Math.round((active / total) * 100)`: its division and multiplication
are IEEE-754 binary64 operations, embedded exactly over the rationals by
`rne53` (round to nearest, ties to even, 53-bit significand; every value
arising here is far inside the normal range), with `Math.round` itself
the exact half-up rounding of the ECMAScript definition.
`Array.prototype.sort` with the comparator
`(a, b) => b.riskScore - a.riskScore` is guaranteed stable by the
ECMAScript specification, and a stable comparison sort is uniquely
determined by its input, so it is embedded as a stable insertion sort.
-/

namespace EchoPrint

/-- RiskLevel, from profiles.ts. -/
inductive RiskLevel
  | LOW
  | MEDIUM
  | HIGH
  | CRITICAL
  deriving DecidableEq, Repr

/-- TargetProfile.trackingInfra, from profiles.ts. -/
structure TrackingInfra where
  primaryDomains : List String
  thirdPartyTrackers : List String
  jsLibraries : List String
  deriving DecidableEq, Repr

/-- TargetProfile.fingerprintMethods, from profiles.ts. -/
structure FingerprintMethods where
  canvas : Bool
  webgl : Bool
  audio : Bool
  fonts : Bool
  sensors : Bool
  battery : Bool
  webrtc : Bool
  behavioral : Bool
  deriving DecidableEq, Repr

/-- TargetProfile.countermeasures, from profiles.ts. -/
structure Countermeasures where
  blockDomains : Bool
  spoofFingerprint : Bool
  clearCookies : Bool
  useContainer : Bool
  deriving DecidableEq, Repr

/-- TargetProfile, from profiles.ts.  The fields `apiEndpoints`,
`detectionTriggers`, `knownVulnerabilities`, `regionSpecific` and
`dataTransferDestination` are plain data never read by the detection
engine, so they are not carried in the embedding; `category`, a string
union in the source, is carried as a string. -/
structure TargetProfile where
  id : String
  name : String
  description : String
  riskLevel : RiskLevel
  category : String
  trackingInfra : TrackingInfra
  fingerprintMethods : FingerprintMethods
  storageKeys : List String
  countermeasures : Countermeasures
  deriving DecidableEq, Repr

/-- A collector record exposing a `supported` boolean; the engine reads
only this field of the canvas/webgl/audio/battery sub-records of
`FingerprintData`. -/
structure SupportedFlag where
  supported : Bool
  deriving DecidableEq, Repr

/-- The storage sub-record of `FingerprintData`; the engine reads only
`localStorage` availability. -/
structure StorageFlags where
  localStorage : Bool
  deriving DecidableEq, Repr

/-- The fingerprint-data bundle, restricted to the fields the detection
engine dereferences (`canvas.supported`, `webgl.supported`,
`audio.supported`, `battery.supported`, `storage.localStorage`); all
other collector output is ignored by this engine. -/
structure FingerprintData where
  canvas : SupportedFlag
  webgl : SupportedFlag
  audio : SupportedFlag
  battery : SupportedFlag
  storage : StorageFlags
  deriving DecidableEq, Repr

/-- The optional page context passed to the TargetDetector constructor. -/
structure PageContext where
  domains : List String
  scripts : List String
  cookies : List String
  localStorage : List String
  deriving DecidableEq, Repr

/-- DetectionSignal.type, from target-detector.ts. -/
inductive SignalType
  | domain
  | script
  | cookie
  | api
  | fingerprint
  | storage
  deriving DecidableEq, Repr

/-- DetectionSignal.severity, from target-detector.ts. -/
inductive Severity
  | low
  | medium
  | high
  | critical
  deriving DecidableEq, Repr

/-- DetectionSignal, from target-detector.ts. -/
structure DetectionSignal where
  type : SignalType
  name : String
  found : Bool
  severity : Severity
  description : String
  deriving DecidableEq, Repr

/-- TargetDetectionResult, from target-detector.ts. -/
structure TargetDetectionResult where
  profile : TargetProfile
  detected : Bool
  confidence : Nat
  signals : List DetectionSignal
  riskScore : Nat
  recommendations : List String
  deriving DecidableEq, Repr

/-- FullDetectionResult, from target-detector.ts. -/
structure FullDetectionResult where
  results : List TargetDetectionResult
  overallRisk : RiskLevel
  totalRiskScore : Nat
  criticalTargets : List TargetProfile
  allSignals : List DetectionSignal
  deriving DecidableEq, Repr

/-- JavaScript `hay.includes(needle)`: substring containment. -/
def strIncludes (hay needle : String) : Bool :=
  decide (needle.data <:+: hay.data)

/-- JavaScript `arr.join(sep)` for the separators used in the engine. -/
def joinWith (sep : String) : List String → String
  | [] => ""
  | [x] => x
  | x :: xs => x ++ sep ++ joinWith sep xs

/-- Exact half-up rounding of `num / den` over the rationals: the
idealised `round(100 × found / total)` of the documentation.  The source
instead evaluates `Math.round((active / total) * 100)` in IEEE-754
binary64 arithmetic (see `jsConfidence`), which can differ from this by
one at reachable inputs. -/
def mathRound (num den : Nat) : Nat :=
  (2 * num + den) / (2 * den)

/-- Fuel-driven binary logarithm, structurally recursive so that it
reduces inside the kernel (Nat.log2 is defined by well-founded
recursion and does not). -/
def log2fuel : Nat → Nat → Nat
  | 0, _ => 0
  | fuel + 1, n => if n ≤ 1 then 0 else log2fuel fuel (n / 2) + 1

/-- `Nat.log2`, computed with fuel. -/
def nlog2 (n : Nat) : Nat := log2fuel n n

/-- Round a rational to the nearest integer, ties to even: the rounding
of IEEE-754 round-to-nearest-even once scaled to the last significand
bit. -/
def rhe (w : ℚ) : ℤ :=
  if w - ⌊w⌋ < 1/2 then ⌊w⌋
  else if 1/2 < w - ⌊w⌋ then ⌊w⌋ + 1
  else if ⌊w⌋ % 2 = 0 then ⌊w⌋ else ⌊w⌋ + 1

/-- The exponent e with 2 ^ e ≤ q < 2 ^ (e + 1), for positive q. -/
def log2floorQ (q : ℚ) : ℤ :=
  if q < 2 ^ ((nlog2 q.num.toNat : ℤ) - (nlog2 q.den : ℤ)) then
    (nlog2 q.num.toNat : ℤ) - (nlog2 q.den : ℤ) - 1
  else (nlog2 q.num.toNat : ℤ) - (nlog2 q.den : ℤ)

/-- A non-negative real rounded to the nearest IEEE-754 binary64 value
(round to nearest, ties to even, 53-bit significand), represented
exactly as a rational.  All values arising in the confidence computation
lie far inside the normal range, so overflow and subnormals never
occur. -/
def rne53 (q : ℚ) : ℚ :=
  if q ≤ 0 then 0
  else (rhe (q / 2 ^ (log2floorQ q - 52)) : ℚ) * 2 ^ (log2floorQ q - 52)

/-- JavaScript division of two numbers: the exact quotient rounded to
binary64. -/
def jsDiv (a b : ℚ) : ℚ := rne53 (a / b)

/-- JavaScript multiplication of two numbers: the exact product rounded
to binary64. -/
def jsMul (a b : ℚ) : ℚ := rne53 (a * b)

/-- ECMAScript `Math.round` on a non-negative number: the closest
integral value, ties towards positive infinity (defined exactly on the
argument, with no further floating-point addition). -/
def jsRoundQ (q : ℚ) : ℤ := ⌊q + 1/2⌋

/-- `Math.round((active / total) * 100)` exactly as the source evaluates
it: an IEEE-754 binary64 division, then a binary64 multiplication by
100, then `Math.round`.  Counts reaching this function in any real
execution are JavaScript array lengths, hence below 2 ^ 32 and exactly
representable. -/
def jsConfidence (active total : Nat) : Nat :=
  (jsRoundQ (jsMul (jsDiv (active : ℚ) (total : ℚ)) 100)).toNat

/-- `this.pageContext?.domains?.some(d => d.includes(x)) ?? false`. -/
def domainObserved (pc : Option PageContext) (x : String) : Bool :=
  match pc with
  | none => false
  | some c => c.domains.any (fun d => strIncludes d x)

/-- `this.pageContext?.scripts?.some(s => s.includes(x)) ?? false`. -/
def scriptObserved (pc : Option PageContext) (x : String) : Bool :=
  match pc with
  | none => false
  | some c => c.scripts.any (fun s => strIncludes s x)

/-- TargetDetector.checkDomains: one signal per primary domain and per
third-party tracker of the profile. -/
def checkDomains (pc : Option PageContext) (profile : TargetProfile) :
    List DetectionSignal :=
  profile.trackingInfra.primaryDomains.map (fun domain =>
    let found := domainObserved pc domain
    { type := SignalType.domain
      name := domain
      found := found
      severity := if found then Severity.high else Severity.low
      description :=
        if found then "Обнаружено соединение с " ++ domain
        else "Не обнаружено соединение с " ++ domain })
  ++ profile.trackingInfra.thirdPartyTrackers.map (fun tracker =>
    let found := domainObserved pc tracker
    { type := SignalType.domain
      name := tracker
      found := found
      severity := if found then Severity.medium else Severity.low
      description :=
        if found then "Сторонний трекер " ++ tracker ++ " активен"
        else "Трекер " ++ tracker ++ " не обнаружен" })

/-- TargetDetector.checkScripts: one signal per declared JS library. -/
def checkScripts (pc : Option PageContext) (profile : TargetProfile) :
    List DetectionSignal :=
  profile.trackingInfra.jsLibraries.map (fun lib =>
    let found := scriptObserved pc lib
    { type := SignalType.script
      name := lib
      found := found
      severity := if found then Severity.critical else Severity.low
      description :=
        if found then "Обнаружен трекинг-скрипт " ++ lib
        else "Скрипт " ++ lib ++ " не загружен" })

/-- TargetDetector.checkFingerprintMethods: six guarded emissions, in
source order canvas, webgl, audio, fonts, battery, behavioral. -/
def checkFingerprintMethods (fp : FingerprintData) (profile : TargetProfile) :
    List DetectionSignal :=
  let m := profile.fingerprintMethods
  (if m.canvas && fp.canvas.supported then
    [{ type := SignalType.fingerprint
       name := "Canvas Fingerprinting"
       found := true
       severity := Severity.high
       description := profile.name ++ " использует Canvas fingerprinting" }]
   else [])
  ++ (if m.webgl && fp.webgl.supported then
    [{ type := SignalType.fingerprint
       name := "WebGL Fingerprinting"
       found := true
       severity := Severity.high
       description := profile.name ++ " использует WebGL fingerprinting" }]
   else [])
  ++ (if m.audio && fp.audio.supported then
    [{ type := SignalType.fingerprint
       name := "Audio Fingerprinting"
       found := true
       severity := Severity.medium
       description := profile.name ++ " использует Audio fingerprinting" }]
   else [])
  ++ (if m.fonts then
    [{ type := SignalType.fingerprint
       name := "Font Enumeration"
       found := true
       severity := Severity.medium
       description := profile.name ++ " перечисляет шрифты" }]
   else [])
  ++ (if m.battery && fp.battery.supported then
    [{ type := SignalType.fingerprint
       name := "Battery API"
       found := true
       severity := Severity.medium
       description := profile.name ++ " использует Battery API" }]
   else [])
  ++ (if m.behavioral then
    [{ type := SignalType.fingerprint
       name := "Behavioral Tracking"
       found := true
       severity := Severity.high
       description := profile.name ++ " отслеживает поведение" }]
   else [])

/-- TargetDetector.checkStorageKeys: gated on localStorage availability,
first 10 declared keys, always found = false. -/
def checkStorageKeys (fp : FingerprintData) (profile : TargetProfile) :
    List DetectionSignal :=
  if fp.storage.localStorage then
    (profile.storageKeys.take 10).map (fun key =>
      { type := SignalType.storage
        name := key
        found := false
        severity := Severity.medium
        description := "Ключ " ++ key ++ " может использоваться " ++ profile.name })
  else []

/-- TargetDetector.generateRecommendations: countermeasure advisories,
then a critical-signal summary, then id-specific advisories (the switch
has cases for aliexpress, facebook, google and tiktok only), truncated
to the first 5 entries. -/
def generateRecommendations (profile : TargetProfile)
    (signals : List DetectionSignal) : List String :=
  let recommendations : List String :=
    (if profile.countermeasures.useContainer then
      ["Используйте Firefox Container для изоляции " ++ profile.name]
     else [])
    ++ (if profile.countermeasures.blockDomains then
      ["Заблокируйте домены: " ++
        joinWith ", " (profile.trackingInfra.primaryDomains.take 3)]
     else [])
    ++ (if profile.countermeasures.clearCookies then
      ["Регулярно очищайте cookies " ++ profile.name]
     else [])
    ++ (if profile.countermeasures.spoofFingerprint then
      ["Рассмотрите spoofing fingerprint для защиты от " ++ profile.name]
     else [])
    ++ (let criticalSignals :=
          signals.filter (fun s => decide (s.severity = Severity.critical) && s.found)
        if 0 < criticalSignals.length then
          ["⚠️ Критические трекеры обнаружены: " ++
            joinWith ", " (criticalSignals.map (fun s => s.name))]
        else [])
    ++ (match profile.id with
        | "aliexpress" =>
          ["AliExpress передаёт данные в Китай без согласия — используйте VPN",
           "Отключите WebRTC для предотвращения утечки IP"]
        | "facebook" =>
          ["Установите Facebook Container (Mozilla) для изоляции",
           "Используйте uBlock Origin с фильтрами Facebook"]
        | "google" =>
          ["Войдите в Google Account → Данные и конфиденциальность → Отключите отслеживание",
           "Используйте альтернативы: DuckDuckGo, Startpage"]
        | "tiktok" =>
          ["TikTok требует обширных разрешений — ограничьте доступ",
           "Запретите доступ к буферу обмена и сенсорам"]
        | _ => [])
  recommendations.take 5

/-- The full signal list assembled by TargetDetector.detectProfile:
domain, script, fingerprint and storage evaluator outputs, concatenated
in that order. -/
def allProfileSignals (fp : FingerprintData) (pc : Option PageContext)
    (profile : TargetProfile) : List DetectionSignal :=
  checkDomains pc profile ++ checkScripts pc profile
    ++ checkFingerprintMethods fp profile ++ checkStorageKeys fp profile

/-- TargetDetector.detectProfile. -/
def detectProfile (fp : FingerprintData) (pc : Option PageContext)
    (profile : TargetProfile) : TargetDetectionResult :=
  let domainSignals := checkDomains pc profile
  let scriptSignals := checkScripts pc profile
  let fpSignals := checkFingerprintMethods fp profile
  let storageSignals := checkStorageKeys fp profile
  let signals := domainSignals ++ scriptSignals ++ fpSignals ++ storageSignals
  let riskScore :=
    (domainSignals.filter (fun s => s.found)).length * 10
    + (scriptSignals.filter (fun s => s.found)).length * 15
    + (fpSignals.filter (fun s => s.found)).length * 5
    + (storageSignals.filter (fun s => s.found)).length * 8
  let recommendations := generateRecommendations profile signals
  let activeSignals := (signals.filter (fun s => s.found)).length
  let totalSignals := if signals.length = 0 then 1 else signals.length
  let confidence := jsConfidence activeSignals totalSignals
  { profile := profile
    detected := decide (30 ≤ riskScore)
    confidence := confidence
    signals := signals.filter (fun s => s.found)
    riskScore := min 100 riskScore
    recommendations := recommendations }

/-- Stable insertion of a result into a list sorted non-increasingly by
riskScore: the new element goes before the first element whose score is
not larger, so earlier-pushed equal-score elements stay first. -/
def insertByRiskDesc (x : TargetDetectionResult) :
    List TargetDetectionResult → List TargetDetectionResult
  | [] => [x]
  | y :: ys =>
    if y.riskScore ≤ x.riskScore then x :: y :: ys
    else y :: insertByRiskDesc x ys

/-- `results.sort((a, b) => b.riskScore - a.riskScore)`: the unique
stable sort non-increasing in riskScore, realised by insertion sort. -/
def sortByRiskDesc : List TargetDetectionResult → List TargetDetectionResult
  | [] => []
  | x :: xs => insertByRiskDesc x (sortByRiskDesc xs)

/-- TargetDetector.calculateOverallRisk. -/
def calculateOverallRisk (totalScore : Nat)
    (results : List TargetDetectionResult) : RiskLevel :=
  let criticalCount :=
    (results.filter (fun r => decide (r.profile.riskLevel = RiskLevel.CRITICAL))).length
  let highScore := (results.filter (fun r => decide (50 ≤ r.riskScore))).length
  if 2 ≤ criticalCount ∨ 80 ≤ totalScore then RiskLevel.CRITICAL
  else if 1 ≤ criticalCount ∨ 2 ≤ highScore ∨ 50 ≤ totalScore then RiskLevel.HIGH
  else if 30 ≤ totalScore then RiskLevel.MEDIUM
  else RiskLevel.LOW

-- ============================================================
-- The profile catalog, from profiles.ts
-- ============================================================

/-- AliExpressProfile, from profiles.ts. -/
def AliExpressProfile : TargetProfile :=
  { id := "aliexpress"
    name := "AliExpress (EU/Global)"
    description := "Крупнейший маркетплейс Alibaba Group с агрессивным трекингом"
    riskLevel := RiskLevel.CRITICAL
    category := "ecommerce"
    trackingInfra :=
      { primaryDomains :=
          ["g.alicdn.com", "log.mmstat.com", "atanx.alicdn.com",
           "gtd.alicdn.com", "acjs.aliyun.com", "ynuf.alipay.com",
           "aeis.alicdn.com", "afcs.alicdn.com"]
        thirdPartyTrackers :=
          ["criteo.com", "appsflyer.com", "google-analytics.com",
           "facebook.com", "rtbhouse.com", "moloco.com", "remerge.io",
           "tiktok.com", "taboola.com", "outbrain.com"]
        jsLibraries :=
          ["aplus_v2.js", "aplus_cplugin.js", "aplus_plugin_aefront/index.js",
           "sufei_data/index.js", "AWSC/awsc.js", "ac.js", "retcode.js"] }
    fingerprintMethods :=
      { canvas := true, webgl := true, audio := true, fonts := true
        sensors := false, battery := true, webrtc := false, behavioral := true }
    storageKeys :=
      ["cna", "isg", "xman_f", "xman_t", "xman_us_f", "xman_us_t",
       "ali_apache_id", "ali_apache_track", "ali_beacon_id",
       "x5sec", "x5secdata", "baxia_sec_cookie", "sgcookie",
       "JSESSIONID", "XSRF-TOKEN", "acs_usuc_t", "_m_h5_tk", "_m_h5_tk_enc",
       "AB_STG", "AB_DATA_TRACK", "AB_ALG", "ali_ab",
       "intl_locale", "intl_common_forever", "aep_common_f", "aep_usuc_f"]
    countermeasures :=
      { blockDomains := true, spoofFingerprint := true
        clearCookies := true, useContainer := true } }

/-- AmazonProfile, from profiles.ts. -/
def AmazonProfile : TargetProfile :=
  { id := "amazon"
    name := "Amazon"
    description := "Глобальный маркетплейс с комплексным трекингом поведения"
    riskLevel := RiskLevel.HIGH
    category := "ecommerce"
    trackingInfra :=
      { primaryDomains :=
          ["amazon.com", "amazon-adsystem.com", "amazonaws.com",
           "cloudfront.net", "assoc-amazon.com"]
        thirdPartyTrackers :=
          ["doubleclick.net", "google-analytics.com", "facebook.com",
           "criteo.com", "advertising.com"]
        jsLibraries :=
          ["amazon-cognito-identity.min.js", "amazon-login.js",
           "apex.js", "ammers.js"] }
    fingerprintMethods :=
      { canvas := true, webgl := true, audio := false, fonts := true
        sensors := false, battery := false, webrtc := false, behavioral := true }
    storageKeys :=
      ["session-id", "session-id-time", "ubid-main", "ubid-tsv",
       "x-main", "at-main", "sess-at-main", "csrfToken",
       "apay-session-id", "apay-device-id"]
    countermeasures :=
      { blockDomains := true, spoofFingerprint := false
        clearCookies := true, useContainer := false } }

/-- FacebookProfile, from profiles.ts. -/
def FacebookProfile : TargetProfile :=
  { id := "facebook"
    name := "Facebook / Meta"
    description := "Социальная сеть с тотальным отслеживанием"
    riskLevel := RiskLevel.CRITICAL
    category := "social"
    trackingInfra :=
      { primaryDomains :=
          ["facebook.com", "fbcdn.net", "facebook.net", "fb.com",
           "messenger.com", "instagram.com", "whatsapp.com"]
        thirdPartyTrackers :=
          ["doubleclick.net", "google-analytics.com",
           "googleadservices.com", "bing.com"]
        jsLibraries :=
          ["fbevents.js", "connect.facebook.net", "recaptcha__en.js",
           "detectproxy.js"] }
    fingerprintMethods :=
      { canvas := true, webgl := true, audio := true, fonts := true
        sensors := false, battery := false, webrtc := true, behavioral := true }
    storageKeys :=
      ["fr", "datr", "sb", "c_user", "xs", "wd", "dpr",
       "presence", "locale", "reg_ext_ref", "reg_fb_ref"]
    countermeasures :=
      { blockDomains := true, spoofFingerprint := true
        clearCookies := true, useContainer := true } }

/-- GoogleProfile, from profiles.ts. -/
def GoogleProfile : TargetProfile :=
  { id := "google"
    name := "Google"
    description := "Поисковик с комплексным трекингом всей экосистемы"
    riskLevel := RiskLevel.CRITICAL
    category := "analytics"
    trackingInfra :=
      { primaryDomains :=
          ["google.com", "google-analytics.com", "googletagmanager.com",
           "googleadservices.com", "googlesyndication.com",
           "doubleclick.net", "gstatic.com", "youtube.com"]
        thirdPartyTrackers := []
        jsLibraries :=
          ["analytics.js", "gtag.js", "gtm.js", "recaptcha__en.js", "cbt.js"] }
    fingerprintMethods :=
      { canvas := true, webgl := true, audio := true, fonts := true
        sensors := false, battery := false, webrtc := false, behavioral := true }
    storageKeys :=
      ["_ga", "_gid", "_gat", "__utma", "__utmb", "__utmc", "__utmz",
       "SID", "HSID", "SSID", "APISID", "SAPISID", "NID", "1P_JAR"]
    countermeasures :=
      { blockDomains := true, spoofFingerprint := false
        clearCookies := true, useContainer := false } }

/-- TikTokProfile, from profiles.ts. -/
def TikTokProfile : TargetProfile :=
  { id := "tiktok"
    name := "TikTok"
    description := "Социальная сеть с агрессивным поведенческим трекингом"
    riskLevel := RiskLevel.CRITICAL
    category := "social"
    trackingInfra :=
      { primaryDomains :=
          ["tiktok.com", "tiktokv.com", "tiktokcdn.com",
           "byteoversea.com", "bytedance.com", "ibytedtos.com"]
        thirdPartyTrackers :=
          ["facebook.com", "google-analytics.com", "adjust.com", "appsdt.com"]
        jsLibraries :=
          ["analytics.js", "pixel.js", "ttq.js"] }
    fingerprintMethods :=
      { canvas := true, webgl := true, audio := true, fonts := true
        sensors := true, battery := true, webrtc := false, behavioral := true }
    storageKeys :=
      ["sid_tt", "sid_guard", "uid_tt", "odin_tt",
       "sessionid", "tt_webid", "tt_webid_v2"]
    countermeasures :=
      { blockDomains := true, spoofFingerprint := true
        clearCookies := true, useContainer := true } }

/-- ALL_TARGET_PROFILES, from profiles.ts: the catalog registration
order. -/
def ALL_TARGET_PROFILES : List TargetProfile :=
  [AliExpressProfile, AmazonProfile, FacebookProfile,
   GoogleProfile, TikTokProfile]

-- ============================================================
-- The aggregator and the single-profile lookup
-- ============================================================

/-- The surfaced results built by the loop in TargetDetector.detectAll:
every catalog profile is scored in registration order and its result is
pushed iff `result.detected || result.confidence > 20`. -/
def surfacedResults (fp : FingerprintData) (pc : Option PageContext) :
    List TargetDetectionResult :=
  (ALL_TARGET_PROFILES.map (detectProfile fp pc)).filter
    (fun r => r.detected || decide (20 < r.confidence))

/-- TargetDetector.detectAll. -/
def detectAll (fp : FingerprintData) (pc : Option PageContext) :
    FullDetectionResult :=
  let results := sortByRiskDesc (surfacedResults fp pc)
  let totalRiskScore := results.foldl (fun sum r => sum + r.riskScore) 0
  let overallRisk := calculateOverallRisk totalRiskScore results
  let criticalTargets :=
    (results.filter (fun r =>
      decide (50 ≤ r.riskScore) || decide (r.profile.riskLevel = RiskLevel.CRITICAL))).map
      (fun r => r.profile)
  let allSignals := results.flatMap (fun r => r.signals.filter (fun s => s.found))
  { results := results
    overallRisk := overallRisk
    totalRiskScore := min 100 totalRiskScore
    criticalTargets := criticalTargets
    allSignals := allSignals }

/-- quickDetect, from target-detector.ts: single-profile lookup by id,
run with no page context. -/
def quickDetect (fp : FingerprintData) (profileId : String) :
    Option TargetDetectionResult :=
  match ALL_TARGET_PROFILES.find? (fun p => decide (p.id = profileId)) with
  | none => none
  | some profile => some (detectProfile fp none profile)

-- ============================================================
-- Concrete bundles used for evaluation of claims
-- ============================================================

/-- A bundle in which no fingerprinting capability is supported and
local storage is unavailable. -/
def emptyBundle : FingerprintData :=
  { canvas := { supported := false }
    webgl := { supported := false }
    audio := { supported := false }
    battery := { supported := false }
    storage := { localStorage := false } }

/-- A bundle in which every capability read by the engine is present. -/
def fullBundle : FingerprintData :=
  { canvas := { supported := true }
    webgl := { supported := true }
    audio := { supported := true }
    battery := { supported := true }
    storage := { localStorage := true } }

-- ============================================================
-- Basic lemmas about the embedded definitions
-- ============================================================

theorem mem_if_singleton {α : Type} {c : Prop} [Decidable c] {x s : α} :
    s ∈ (if c then [x] else ([] : List α)) ↔ c ∧ s = x := by
  split <;> simp_all

theorem detectProfile_profile (fp : FingerprintData) (pc : Option PageContext)
    (p : TargetProfile) : (detectProfile fp pc p).profile = p := rfl

theorem detectProfile_riskScore (fp : FingerprintData) (pc : Option PageContext)
    (p : TargetProfile) :
    (detectProfile fp pc p).riskScore =
      min 100 (((checkDomains pc p).filter (fun s => s.found)).length * 10
        + ((checkScripts pc p).filter (fun s => s.found)).length * 15
        + ((checkFingerprintMethods fp p).filter (fun s => s.found)).length * 5
        + ((checkStorageKeys fp p).filter (fun s => s.found)).length * 8) := rfl

theorem detectProfile_detected (fp : FingerprintData) (pc : Option PageContext)
    (p : TargetProfile) :
    (detectProfile fp pc p).detected =
      decide (30 ≤ ((checkDomains pc p).filter (fun s => s.found)).length * 10
        + ((checkScripts pc p).filter (fun s => s.found)).length * 15
        + ((checkFingerprintMethods fp p).filter (fun s => s.found)).length * 5
        + ((checkStorageKeys fp p).filter (fun s => s.found)).length * 8) := rfl

theorem detectProfile_signals (fp : FingerprintData) (pc : Option PageContext)
    (p : TargetProfile) :
    (detectProfile fp pc p).signals =
      (allProfileSignals fp pc p).filter (fun s => s.found) := rfl

theorem detectProfile_confidence (fp : FingerprintData) (pc : Option PageContext)
    (p : TargetProfile) :
    (detectProfile fp pc p).confidence =
      jsConfidence (((allProfileSignals fp pc p).filter (fun s => s.found)).length)
        (if (allProfileSignals fp pc p).length = 0 then 1
         else (allProfileSignals fp pc p).length) := rfl

theorem detectProfile_recommendations (fp : FingerprintData) (pc : Option PageContext)
    (p : TargetProfile) :
    (detectProfile fp pc p).recommendations =
      generateRecommendations p (allProfileSignals fp pc p) := rfl

theorem detectAll_results (fp : FingerprintData) (pc : Option PageContext) :
    (detectAll fp pc).results = sortByRiskDesc (surfacedResults fp pc) := rfl

theorem detectAll_totalRiskScore (fp : FingerprintData) (pc : Option PageContext) :
    (detectAll fp pc).totalRiskScore =
      min 100 ((sortByRiskDesc (surfacedResults fp pc)).foldl
        (fun sum r => sum + r.riskScore) 0) := rfl

theorem checkDomains_type (pc : Option PageContext) (p : TargetProfile) :
    ∀ s ∈ checkDomains pc p, s.type = SignalType.domain := by
  intro s hs
  simp only [checkDomains, List.mem_append, List.mem_map] at hs
  rcases hs with ⟨d, _, rfl⟩ | ⟨d, _, rfl⟩ <;> rfl

theorem checkScripts_type (pc : Option PageContext) (p : TargetProfile) :
    ∀ s ∈ checkScripts pc p, s.type = SignalType.script := by
  intro s hs
  simp only [checkScripts, List.mem_map] at hs
  rcases hs with ⟨d, _, rfl⟩
  rfl

theorem checkFingerprintMethods_type (fp : FingerprintData) (p : TargetProfile) :
    ∀ s ∈ checkFingerprintMethods fp p, s.type = SignalType.fingerprint := by
  intro s hs
  simp only [checkFingerprintMethods, List.mem_append, mem_if_singleton] at hs
  rcases hs with ((((⟨_, rfl⟩ | ⟨_, rfl⟩) | ⟨_, rfl⟩) | ⟨_, rfl⟩) | ⟨_, rfl⟩) | ⟨_, rfl⟩ <;> rfl

theorem checkStorageKeys_type (fp : FingerprintData) (p : TargetProfile) :
    ∀ s ∈ checkStorageKeys fp p, s.type = SignalType.storage := by
  intro s hs
  simp only [checkStorageKeys] at hs
  split at hs
  · simp only [List.mem_map] at hs
    rcases hs with ⟨k, _, rfl⟩
    rfl
  · simp at hs

theorem checkFingerprintMethods_found (fp : FingerprintData) (p : TargetProfile) :
    ∀ s ∈ checkFingerprintMethods fp p, s.found = true := by
  intro s hs
  simp only [checkFingerprintMethods, List.mem_append, mem_if_singleton] at hs
  rcases hs with ((((⟨_, rfl⟩ | ⟨_, rfl⟩) | ⟨_, rfl⟩) | ⟨_, rfl⟩) | ⟨_, rfl⟩) | ⟨_, rfl⟩ <;> rfl

theorem checkDomains_none_found (p : TargetProfile) :
    ∀ s ∈ checkDomains none p, s.found = false := by
  intro s hs
  simp only [checkDomains, List.mem_append, List.mem_map] at hs
  rcases hs with ⟨d, _, rfl⟩ | ⟨d, _, rfl⟩ <;> rfl

theorem checkScripts_none_found (p : TargetProfile) :
    ∀ s ∈ checkScripts none p, s.found = false := by
  intro s hs
  simp only [checkScripts, List.mem_map] at hs
  rcases hs with ⟨d, _, rfl⟩
  rfl

/-- The number of found signals of a given type in a signal list. -/
def countFoundOfType (l : List DetectionSignal) (t : SignalType) : Nat :=
  (l.filter (fun s => decide (s.type = t) && s.found)).length

theorem filter_type_found_of_all {l : List DetectionSignal} {t : SignalType}
    (h : ∀ s ∈ l, s.type = t) :
    l.filter (fun s => decide (s.type = t) && s.found) = l.filter (fun s => s.found) := by
  apply List.filter_congr
  intro s hs
  simp [h s hs]

theorem filter_type_found_nil {l : List DetectionSignal} {t t' : SignalType}
    (h : ∀ s ∈ l, s.type = t) (hne : t ≠ t') :
    l.filter (fun s => decide (s.type = t') && s.found) = [] := by
  rw [List.filter_eq_nil_iff]
  intro s hs
  simp [h s hs, hne]

theorem countFoundOfType_allProfileSignals (fp : FingerprintData)
    (pc : Option PageContext) (p : TargetProfile) (t : SignalType) :
    countFoundOfType (allProfileSignals fp pc p) t =
      (if t = SignalType.domain then
        ((checkDomains pc p).filter (fun s => s.found)).length else 0)
      + (if t = SignalType.script then
        ((checkScripts pc p).filter (fun s => s.found)).length else 0)
      + (if t = SignalType.fingerprint then
        ((checkFingerprintMethods fp p).filter (fun s => s.found)).length else 0)
      + (if t = SignalType.storage then
        ((checkStorageKeys fp p).filter (fun s => s.found)).length else 0) := by
  unfold countFoundOfType allProfileSignals
  simp only [List.filter_append, List.length_append]
  congr 1
  · congr 1
    · congr 1
      · split
        · rename_i ht
          rw [ht, filter_type_found_of_all (checkDomains_type pc p)]
        · rename_i ht
          rw [filter_type_found_nil (checkDomains_type pc p) (fun hh => ht hh.symm)]
          rfl
      · split
        · rename_i ht
          rw [ht, filter_type_found_of_all (checkScripts_type pc p)]
        · rename_i ht
          rw [filter_type_found_nil (checkScripts_type pc p) (fun hh => ht hh.symm)]
          rfl
    · split
      · rename_i ht
        rw [ht, filter_type_found_of_all (checkFingerprintMethods_type fp p)]
      · rename_i ht
        rw [filter_type_found_nil (checkFingerprintMethods_type fp p) (fun hh => ht hh.symm)]
        rfl
  · split
    · rename_i ht
      rw [ht, filter_type_found_of_all (checkStorageKeys_type fp p)]
    · rename_i ht
      rw [filter_type_found_nil (checkStorageKeys_type fp p) (fun hh => ht hh.symm)]
      rfl

/-- C1: for every profile, bundle and page context, the riskScore of the
per-profile scorer equals 10 times the number of found domain signals
plus 15 times the number of found script signals plus 5 times the number
of found fingerprint signals plus 8 times the number of found storage
signals, clamped to the range [0, 100] (scores are natural numbers, so
the lower clamp is inherent and the upper clamp is the `min 100`). -/
theorem c1_riskScore_weighted_sum (fp : FingerprintData) (pc : Option PageContext)
    (p : TargetProfile) :
    (detectProfile fp pc p).riskScore =
      min 100 (10 * countFoundOfType (allProfileSignals fp pc p) SignalType.domain
        + 15 * countFoundOfType (allProfileSignals fp pc p) SignalType.script
        + 5 * countFoundOfType (allProfileSignals fp pc p) SignalType.fingerprint
        + 8 * countFoundOfType (allProfileSignals fp pc p) SignalType.storage)
    ∧ (detectProfile fp pc p).riskScore ≤ 100 := by
  constructor
  · rw [detectProfile_riskScore,
      countFoundOfType_allProfileSignals fp pc p SignalType.domain,
      countFoundOfType_allProfileSignals fp pc p SignalType.script,
      countFoundOfType_allProfileSignals fp pc p SignalType.fingerprint,
      countFoundOfType_allProfileSignals fp pc p SignalType.storage]
    simp only [if_pos, if_neg, reduceCtorEq, reduceIte]
    omega
  · rw [detectProfile_riskScore]
    exact Nat.min_le_left _ _

theorem log2fuel_eq (fuel n : Nat) (h : n ≤ fuel) : log2fuel fuel n = Nat.log2 n := by
  induction fuel generalizing n with
  | zero =>
    have : n = 0 := by omega
    subst this
    unfold Nat.log2
    rfl
  | succ fuel ih =>
    rw [log2fuel]
    rw [Nat.log2]
    rcases le_or_lt n 1 with h1 | h1
    · rw [if_pos h1, if_neg (by omega)]
    · rw [if_neg (by omega), if_pos (by omega)]
      rw [ih (n / 2) (by omega)]

theorem nlog2_eq (n : Nat) : nlog2 n = Nat.log2 n :=
  log2fuel_eq n n (Nat.le_refl n)

theorem rhe_le (w : ℚ) : (rhe w : ℚ) ≤ w + 1/2 := by
  have h1 := Int.floor_le w
  have h2 := Int.lt_floor_add_one w
  unfold rhe
  split_ifs <;> push_cast <;> linarith

theorem le_rhe (w : ℚ) : w - 1/2 ≤ (rhe w : ℚ) := by
  have h1 := Int.floor_le w
  have h2 := Int.lt_floor_add_one w
  unfold rhe
  split_ifs <;> push_cast <;> linarith

theorem log2floorQ_correct (q : ℚ) (hq : 0 < q) :
    (2:ℚ) ^ log2floorQ q ≤ q ∧ q < 2 ^ (log2floorQ q + 1) := by
  have hnum : 0 < q.num := Rat.num_pos.2 hq
  have hn0 : q.num.toNat ≠ 0 := by omega
  have hd0 : q.den ≠ 0 := q.den_nz
  have h1 : (2:ℕ) ^ nlog2 q.num.toNat ≤ q.num.toNat := by
    rw [nlog2_eq]
    exact Nat.log2_self_le hn0
  have h2 : q.num.toNat < 2 ^ (nlog2 q.num.toNat + 1) := by
    rw [nlog2_eq]
    exact Nat.lt_log2_self
  have h3 : (2:ℕ) ^ nlog2 q.den ≤ q.den := by
    rw [nlog2_eq]
    exact Nat.log2_self_le hd0
  have h4 : q.den < 2 ^ (nlog2 q.den + 1) := by
    rw [nlog2_eq]
    exact Nat.lt_log2_self
  set a := nlog2 q.num.toNat with ha
  set d := nlog2 q.den with hd
  have hdenQ : (0:ℚ) < (q.den : ℚ) := by exact_mod_cast q.den_pos
  have hnumQ : ((q.num.toNat : ℕ) : ℚ) = (q.num : ℚ) := by
    exact_mod_cast congrArg (fun z : ℤ => (z : ℚ)) (Int.toNat_of_nonneg hnum.le)
  have hqe : q = (q.num : ℚ) / (q.den : ℚ) := (Rat.num_div_den q).symm
  have e1 : (2:ℚ) ^ (a : ℤ) ≤ (q.num : ℚ) := by
    rw [← hnumQ, zpow_natCast]
    exact_mod_cast h1
  have e2 : (q.num : ℚ) < 2 ^ ((a : ℤ) + 1) := by
    rw [← hnumQ]
    have : ((a : ℤ) + 1) = ((a + 1 : ℕ) : ℤ) := by push_cast; ring
    rw [this, zpow_natCast]
    exact_mod_cast h2
  have e3 : (2:ℚ) ^ (d : ℤ) ≤ (q.den : ℚ) := by
    rw [zpow_natCast]
    exact_mod_cast h3
  have e4 : (q.den : ℚ) < 2 ^ ((d : ℤ) + 1) := by
    have : ((d : ℤ) + 1) = ((d + 1 : ℕ) : ℤ) := by push_cast; ring
    rw [this, zpow_natCast]
    exact_mod_cast h4
  have key_low : (2:ℚ) ^ ((a:ℤ) - d - 1) < q := by
    rw [hqe, lt_div_iff₀ hdenQ]
    calc (2:ℚ) ^ ((a:ℤ) - d - 1) * (q.den : ℚ)
        < 2 ^ ((a:ℤ) - d - 1) * 2 ^ ((d:ℤ) + 1) := by
          exact mul_lt_mul_of_pos_left e4 (zpow_pos (by norm_num) _)
      _ = 2 ^ (a : ℤ) := by
          rw [← zpow_add₀ (two_ne_zero : (2:ℚ) ≠ 0)]
          congr 1
          ring
      _ ≤ (q.num : ℚ) := e1
  have key_high : q < (2:ℚ) ^ ((a:ℤ) - d + 1) := by
    rw [hqe, div_lt_iff₀ hdenQ]
    calc (q.num : ℚ) < 2 ^ ((a:ℤ) + 1) := e2
      _ = 2 ^ ((a:ℤ) - d + 1) * 2 ^ (d : ℤ) := by
          rw [← zpow_add₀ (two_ne_zero : (2:ℚ) ≠ 0)]
          congr 1
          ring
      _ ≤ 2 ^ ((a:ℤ) - d + 1) * (q.den : ℚ) := by
          exact mul_le_mul_of_nonneg_left e3 (zpow_pos (a := (2:ℚ)) (by norm_num) _).le
  unfold log2floorQ
  rw [← ha, ← hd]
  split_ifs with hcase
  · exact ⟨le_of_lt key_low, by
      have heq : (a:ℤ) - (d:ℤ) - 1 + 1 = (a:ℤ) - d := by ring
      rw [heq]
      exact hcase⟩
  · exact ⟨not_lt.1 hcase, key_high⟩

theorem rne53_bounds (q : ℚ) (hq : 0 < q) :
    q - 2 ^ (log2floorQ q - 53) ≤ rne53 q ∧ rne53 q ≤ q + 2 ^ (log2floorQ q - 53) := by
  have hu : (0:ℚ) < 2 ^ (log2floorQ q - 52) := zpow_pos (by norm_num) _
  have hle := rhe_le (q / 2 ^ (log2floorQ q - 52))
  have hge := le_rhe (q / 2 ^ (log2floorQ q - 52))
  have hsplit : (2:ℚ) ^ (log2floorQ q - 52) = 2 ^ (log2floorQ q - 53) * 2 := by
    rw [← zpow_add_one₀ (two_ne_zero : (2:ℚ) ≠ 0)]
    congr 1
    ring
  unfold rne53
  rw [if_neg (not_le.2 hq)]
  constructor
  · have hmul := mul_le_mul_of_nonneg_right hge hu.le
    rw [sub_mul, div_mul_cancel₀ _ (ne_of_gt hu)] at hmul
    linarith [hmul, hsplit]
  · have hmul := mul_le_mul_of_nonneg_right hle hu.le
    rw [add_mul, div_mul_cancel₀ _ (ne_of_gt hu)] at hmul
    linarith [hmul, hsplit]

theorem rne53_le_rel {q : ℚ} (hq : 0 < q) :
    rne53 q ≤ q + q * 2 ^ (-53 : ℤ) := by
  have hb := (rne53_bounds q hq).2
  have he := (log2floorQ_correct q hq).1
  have hstep : (2:ℚ) ^ (log2floorQ q - 53) = 2 ^ (log2floorQ q) * 2 ^ (-53 : ℤ) := by
    have harith : (log2floorQ q - 53 : ℤ) = log2floorQ q + (-53) := by ring
    rw [harith, zpow_add₀ (two_ne_zero : (2:ℚ) ≠ 0)]
  have hpos : (0:ℚ) < 2 ^ (-53 : ℤ) := zpow_pos (by norm_num) _
  have hmul : (2:ℚ) ^ (log2floorQ q) * 2 ^ (-53 : ℤ) ≤ q * 2 ^ (-53 : ℤ) :=
    mul_le_mul_of_nonneg_right he hpos.le
  linarith [hb, hstep, hmul]

theorem le_rne53_rel {q : ℚ} (hq : 0 < q) :
    q - q * 2 ^ (-53 : ℤ) ≤ rne53 q := by
  have hb := (rne53_bounds q hq).1
  have he := (log2floorQ_correct q hq).1
  have hstep : (2:ℚ) ^ (log2floorQ q - 53) = 2 ^ (log2floorQ q) * 2 ^ (-53 : ℤ) := by
    have harith : (log2floorQ q - 53 : ℤ) = log2floorQ q + (-53) := by ring
    rw [harith, zpow_add₀ (two_ne_zero : (2:ℚ) ≠ 0)]
  have hpos : (0:ℚ) < 2 ^ (-53 : ℤ) := zpow_pos (by norm_num) _
  have hmul : (2:ℚ) ^ (log2floorQ q) * 2 ^ (-53 : ℤ) ≤ q * 2 ^ (-53 : ℤ) :=
    mul_le_mul_of_nonneg_right he hpos.le
  linarith [hb, hstep, hmul]

theorem jsConfidence_zero (t : Nat) : jsConfidence 0 t = 0 := by
  unfold jsConfidence jsDiv jsMul jsRoundQ
  norm_num [rne53]

theorem jsConfidence_le_100 {a t : Nat} (h : a ≤ t) (ht : 0 < t) :
    jsConfidence a t ≤ 100 := by
  rcases Nat.eq_zero_or_pos a with rfl | ha
  · rw [jsConfidence_zero]
    omega
  · unfold jsConfidence jsDiv jsMul jsRoundQ
    have hta : (0:ℚ) < (t:ℚ) := by exact_mod_cast ht
    have haq : (0:ℚ) < (a:ℚ) := by exact_mod_cast ha
    have hqa0 : 0 < (a:ℚ) / (t:ℚ) := div_pos haq hta
    have hqa1 : (a:ℚ) / (t:ℚ) ≤ 1 := by
      rw [div_le_one hta]
      exact_mod_cast h
    have hεv : (2:ℚ) ^ (-53 : ℤ) = 1 / 9007199254740992 := by
      rw [zpow_neg]
      norm_num
    have hx_ub := rne53_le_rel hqa0
    have hx_lb := le_rne53_rel hqa0
    have hε : (0:ℚ) < 2 ^ (-53 : ℤ) := zpow_pos (by norm_num) _
    have hqaε : (a:ℚ) / (t:ℚ) * 2 ^ (-53:ℤ) ≤ 2 ^ (-53:ℤ) :=
      mul_le_of_le_one_left hε.le hqa1
    have hx1 : rne53 ((a:ℚ) / (t:ℚ)) ≤ 1 + 2 ^ (-53:ℤ) := by linarith
    have hx0 : 0 < rne53 ((a:ℚ) / (t:ℚ)) := by nlinarith [hεv]
    have hz0 : 0 < rne53 ((a:ℚ) / (t:ℚ)) * 100 := by positivity
    have hy_ub := rne53_le_rel hz0
    have hzb : rne53 ((a:ℚ) / (t:ℚ)) * 100 ≤ 100 + 100 * 2 ^ (-53:ℤ) := by linarith
    have hzε : rne53 ((a:ℚ) / (t:ℚ)) * 100 * 2 ^ (-53:ℤ)
        ≤ (100 + 100 * 2 ^ (-53:ℤ)) * 2 ^ (-53:ℤ) :=
      mul_le_mul_of_nonneg_right hzb hε.le
    have hyb : rne53 (rne53 ((a:ℚ) / (t:ℚ)) * 100) + 1/2 < 101 := by
      rw [hεv] at hzε hy_ub hzb
      nlinarith
    have hfl : ⌊rne53 (rne53 ((a:ℚ) / (t:ℚ)) * 100) + 1/2⌋ < 101 := by
      apply Int.floor_lt.2
      push_cast
      linarith
    omega

theorem jsConfidence_pos {a t : Nat} (ha : 0 < a) (h : a ≤ t) (hb : t ≤ 50 * a) :
    0 < jsConfidence a t := by
  unfold jsConfidence jsDiv jsMul jsRoundQ
  have hta : (0:ℚ) < (t:ℚ) := by
    have hpos : 0 < t := by omega
    exact_mod_cast hpos
  have haq : (0:ℚ) < (a:ℚ) := by exact_mod_cast ha
  have hqa0 : 0 < (a:ℚ) / (t:ℚ) := div_pos haq hta
  have htb : (t:ℚ) ≤ 50 * (a:ℚ) := by exact_mod_cast hb
  have hqa50 : 1 / 50 ≤ (a:ℚ) / (t:ℚ) := by
    rw [div_le_div_iff₀ (by norm_num) hta]
    linarith
  have hεv : (2:ℚ) ^ (-53 : ℤ) = 1 / 9007199254740992 := by
    rw [zpow_neg]
    norm_num
  have hqa1 : (a:ℚ) / (t:ℚ) ≤ 1 := by
    rw [div_le_one hta]
    exact_mod_cast h
  have hx_lb := le_rne53_rel hqa0
  have hqaε : (a:ℚ) / (t:ℚ) * 2 ^ (-53:ℤ) ≤ 2 ^ (-53:ℤ) :=
    mul_le_of_le_one_left (zpow_pos (a := (2:ℚ)) (by norm_num) _).le hqa1
  have hx50 : 1 / 51 ≤ rne53 ((a:ℚ) / (t:ℚ)) := by
    rw [hεv] at hx_lb hqaε
    nlinarith
  have hx0 : 0 < rne53 ((a:ℚ) / (t:ℚ)) := by linarith
  have hz0 : 0 < rne53 ((a:ℚ) / (t:ℚ)) * 100 := by positivity
  have hy_lb := le_rne53_rel hz0
  have hzε : rne53 ((a:ℚ) / (t:ℚ)) * 100 * 2 ^ (-53:ℤ)
      ≤ rne53 ((a:ℚ) / (t:ℚ)) * 100 := by
    rw [hεv]
    nlinarith
  have hy15 : (3:ℚ)/2 ≤ rne53 (rne53 ((a:ℚ) / (t:ℚ)) * 100) := by
    rw [hεv] at hy_lb
    nlinarith
  have hfl : 2 ≤ ⌊rne53 (rne53 ((a:ℚ) / (t:ℚ)) * 100) + 1/2⌋ := by
    apply Int.le_floor.2
    push_cast
    linarith
  omega

/-- A synthetic profile whose scorer run (below) emits 40 signals with
23 found: 23 primary-domain indicators all observed on the page, 17
declared script libraries none of which is loaded, no fingerprint
methods, no storage keys. -/
def divergentProfile : TargetProfile :=
  { id := "divergent"
    name := "Divergent"
    description := ""
    riskLevel := RiskLevel.LOW
    category := "adtech"
    trackingInfra :=
      { primaryDomains := List.replicate 23 "a"
        thirdPartyTrackers := []
        jsLibraries := List.replicate 17 "b" }
    fingerprintMethods :=
      { canvas := false, webgl := false, audio := false, fonts := false
        sensors := false, battery := false, webrtc := false, behavioral := false }
    storageKeys := []
    countermeasures :=
      { blockDomains := false, spoofFingerprint := false
        clearCookies := false, useContainer := false } }

/-- A page context observing the single domain the divergent profile's
indicators all match, and no scripts. -/
def divergentContext : PageContext :=
  { domains := ["a"], scripts := [], cookies := [], localStorage := [] }

set_option maxRecDepth 100000 in
/-- C5 counterexample: a scorer run with 40 emitted signals of which 23
are found.  `(23 / 40) * 100` evaluates to 57.49999999999999289… in
binary64, so the source's `Math.round` returns 57, while the claimed
exact round(100 × 23 / 40) = round(57.5) = 58: the confidence field does
not equal the exact rounding formula. -/
theorem c5_counterexample :
    (allProfileSignals emptyBundle (some divergentContext) divergentProfile).length = 40
    ∧ ((allProfileSignals emptyBundle (some divergentContext) divergentProfile).filter
        (fun s => s.found)).length = 23
    ∧ (detectProfile emptyBundle (some divergentContext) divergentProfile).confidence = 57
    ∧ mathRound (100 * 23) 40 = 58 := by
  refine ⟨by decide, by decide, ?_, by decide⟩
  rw [detectProfile_confidence]
  with_unfolding_all decide

/-- C5 (amended): the confidence of the per-profile scorer equals
`Math.round((foundSignalCount / totalSignalCount) * 100)` evaluated in
IEEE-754 binary64 arithmetic exactly as the source does (which can
differ by one from exact rational rounding), over the full emitted
signal list; it is 0 when that list is empty (no division by zero), and
is always between 0 and 100 (the lower bound being inherent to Nat). -/
theorem c5_confidence_spec (fp : FingerprintData) (pc : Option PageContext)
    (p : TargetProfile) :
    ((allProfileSignals fp pc p).length = 0 → (detectProfile fp pc p).confidence = 0)
    ∧ (0 < (allProfileSignals fp pc p).length →
        (detectProfile fp pc p).confidence =
          jsConfidence (((allProfileSignals fp pc p).filter (fun s => s.found)).length)
            (allProfileSignals fp pc p).length)
    ∧ (detectProfile fp pc p).confidence ≤ 100 := by
  refine ⟨?_, ?_, ?_⟩
  · intro h0
    rw [detectProfile_confidence, if_pos h0]
    rw [List.length_eq_zero] at h0
    rw [h0]
    simpa using jsConfidence_zero 1
  · intro hpos
    rw [detectProfile_confidence, if_neg (by omega)]
  · rw [detectProfile_confidence]
    split
    · rename_i h0
      rw [List.length_eq_zero] at h0
      rw [h0]
      simp [jsConfidence_zero]
    · rename_i h0
      exact jsConfidence_le_100 (List.length_filter_le _ _) (by omega)

/-- C5 witness: a concrete run of the scorer on the Amazon profile with
an empty bundle and no page context has 16 emitted signals, 2 of them
found, and confidence Math.round((2 / 16) * 100) = 13. -/
theorem c5_confidence_spec_witness :
    (detectProfile emptyBundle none AmazonProfile).confidence =
      jsConfidence (((allProfileSignals emptyBundle none AmazonProfile).filter
        (fun s => s.found)).length)
        (allProfileSignals emptyBundle none AmazonProfile).length :=
  (c5_confidence_spec emptyBundle none AmazonProfile).2.1 (by decide)

/-- C8: the storage-key evaluator emits signals only when the bundle's
localStorage flag is true, one signal per key for at most the first 10
declared storage keys, every emitted signal has found = false and
severity medium, and consequently storage signals contribute nothing to
the riskScore on any input. -/
theorem c8_storage_stub (fp : FingerprintData) (p : TargetProfile) :
    (fp.storage.localStorage = false → checkStorageKeys fp p = [])
    ∧ (fp.storage.localStorage = true →
        (checkStorageKeys fp p).map (fun s => s.name) = p.storageKeys.take 10)
    ∧ (checkStorageKeys fp p).length ≤ 10
    ∧ (∀ s ∈ checkStorageKeys fp p, s.found = false ∧ s.severity = Severity.medium)
    ∧ ∀ pc, (detectProfile fp pc p).riskScore =
        min 100 (((checkDomains pc p).filter (fun s => s.found)).length * 10
          + ((checkScripts pc p).filter (fun s => s.found)).length * 15
          + ((checkFingerprintMethods fp p).filter (fun s => s.found)).length * 5) := by
  have hmem : ∀ s ∈ checkStorageKeys fp p, s.found = false ∧ s.severity = Severity.medium := by
    intro s hs
    simp only [checkStorageKeys] at hs
    split at hs
    · simp only [List.mem_map] at hs
      rcases hs with ⟨k, _, rfl⟩
      exact ⟨rfl, rfl⟩
    · simp at hs
  have hfilter : (checkStorageKeys fp p).filter (fun s => s.found) = [] := by
    rw [List.filter_eq_nil_iff]
    intro s hs
    simp [(hmem s hs).1]
  refine ⟨?_, ?_, ?_, hmem, ?_⟩
  · intro h
    simp [checkStorageKeys, h]
  · intro h
    simp [checkStorageKeys, h, List.map_map, Function.comp_def]
  · simp only [checkStorageKeys]
    split
    · simp only [List.length_map, List.length_take]
      omega
    · simp
  · intro pc
    rw [detectProfile_riskScore, hfilter]
    simp

/-- C8 witness: with local storage reported unavailable, the storage-key
evaluator of the AliExpress profile emits nothing. -/
theorem c8_storage_stub_witness :
    checkStorageKeys emptyBundle AliExpressProfile = [] :=
  (c8_storage_stub emptyBundle AliExpressProfile).1 rfl

/-- C9: the single-profile lookup quickDetect returns none (rather than
failing) when no catalog entry has the requested id; for a known id it
does return a result, namely exactly detectProfile's result computed
with no page context, in which every domain signal and every script
signal has found = false. -/
theorem c9_quickDetect_spec (fp : FingerprintData) (profileId : String) :
    ((∀ p ∈ ALL_TARGET_PROFILES, p.id ≠ profileId) → quickDetect fp profileId = none)
    ∧ (∀ p ∈ ALL_TARGET_PROFILES, p.id = profileId →
        quickDetect fp profileId = some (detectProfile fp none p))
    ∧ (∀ r, quickDetect fp profileId = some r →
        ∃ p ∈ ALL_TARGET_PROFILES, p.id = profileId ∧ r = detectProfile fp none p
          ∧ (∀ s ∈ checkDomains none p, s.found = false)
          ∧ (∀ s ∈ checkScripts none p, s.found = false)) := by
  refine ⟨?_, ?_, ?_⟩
  · intro hnone
    have : ALL_TARGET_PROFILES.find? (fun p => decide (p.id = profileId)) = none := by
      rw [List.find?_eq_none]
      intro p hp
      simp [hnone p hp]
    simp [quickDetect, this]
  · intro p hp hid
    subst hid
    simp only [ALL_TARGET_PROFILES, List.mem_cons, List.not_mem_nil, or_false] at hp
    rcases hp with rfl | rfl | rfl | rfl | rfl <;> rfl
  · intro r hr
    unfold quickDetect at hr
    rcases hfind : ALL_TARGET_PROFILES.find? (fun p => decide (p.id = profileId)) with
      _ | p
    · rw [hfind] at hr
      exact absurd hr (by simp)
    · rw [hfind] at hr
      simp only [Option.some.injEq] at hr
      refine ⟨p, List.mem_of_find?_eq_some hfind, ?_, hr.symm,
        checkDomains_none_found p, checkScripts_none_found p⟩
      have := List.find?_some hfind
      simpa using this

/-- C9 witness: an id matching no catalog entry yields none, and the
known id amazon yields exactly the pageless detectProfile result of the
Amazon profile. -/
theorem c9_quickDetect_spec_witness :
    quickDetect emptyBundle "vkontakte" = none
    ∧ quickDetect emptyBundle "amazon"
        = some (detectProfile emptyBundle none AmazonProfile) :=
  ⟨(c9_quickDetect_spec emptyBundle "vkontakte").1 (by decide),
   (c9_quickDetect_spec emptyBundle "amazon").2.1 AmazonProfile
     (List.Mem.tail _ (List.Mem.head _)) rfl⟩

/-- C4: the fingerprint-method evaluator only ever emits found = true
signals; a capability declared true on the profile is emitted iff the
corresponding bundle support flag is also true, except fonts and
behavioral, which are emitted unconditionally whenever declared; the
emitted severity is high for canvas, webgl and behavioral, and medium
for audio, fonts and battery. -/
theorem c4_fingerprint_gating (fp : FingerprintData) (p : TargetProfile) :
    (∀ s ∈ checkFingerprintMethods fp p, s.found = true)
    ∧ ((∃ s ∈ checkFingerprintMethods fp p,
          s.name = "Canvas Fingerprinting" ∧ s.found = true ∧ s.severity = Severity.high)
        ↔ (p.fingerprintMethods.canvas = true ∧ fp.canvas.supported = true))
    ∧ ((∃ s ∈ checkFingerprintMethods fp p,
          s.name = "WebGL Fingerprinting" ∧ s.found = true ∧ s.severity = Severity.high)
        ↔ (p.fingerprintMethods.webgl = true ∧ fp.webgl.supported = true))
    ∧ ((∃ s ∈ checkFingerprintMethods fp p,
          s.name = "Audio Fingerprinting" ∧ s.found = true ∧ s.severity = Severity.medium)
        ↔ (p.fingerprintMethods.audio = true ∧ fp.audio.supported = true))
    ∧ ((∃ s ∈ checkFingerprintMethods fp p,
          s.name = "Font Enumeration" ∧ s.found = true ∧ s.severity = Severity.medium)
        ↔ p.fingerprintMethods.fonts = true)
    ∧ ((∃ s ∈ checkFingerprintMethods fp p,
          s.name = "Battery API" ∧ s.found = true ∧ s.severity = Severity.medium)
        ↔ (p.fingerprintMethods.battery = true ∧ fp.battery.supported = true))
    ∧ ((∃ s ∈ checkFingerprintMethods fp p,
          s.name = "Behavioral Tracking" ∧ s.found = true ∧ s.severity = Severity.high)
        ↔ p.fingerprintMethods.behavioral = true) := by
  refine ⟨checkFingerprintMethods_found fp p, ?_, ?_, ?_, ?_, ?_, ?_⟩
  · simp only [checkFingerprintMethods, List.mem_append, mem_if_singleton]
    constructor
    · rintro ⟨s, hs, hname, hfound, hsev⟩
      rcases hs with ((((⟨hc, rfl⟩ | ⟨hc, rfl⟩) | ⟨hc, rfl⟩) | ⟨hc, rfl⟩) | ⟨hc, rfl⟩) | ⟨hc, rfl⟩ <;>
        simp_all
    · rintro ⟨h1, h2⟩
      exact ⟨_, Or.inl (Or.inl (Or.inl (Or.inl (Or.inl ⟨by simp [h1, h2], rfl⟩)))),
        rfl, rfl, rfl⟩
  · simp only [checkFingerprintMethods, List.mem_append, mem_if_singleton]
    constructor
    · rintro ⟨s, hs, hname, hfound, hsev⟩
      rcases hs with ((((⟨hc, rfl⟩ | ⟨hc, rfl⟩) | ⟨hc, rfl⟩) | ⟨hc, rfl⟩) | ⟨hc, rfl⟩) | ⟨hc, rfl⟩ <;>
        simp_all
    · rintro ⟨h1, h2⟩
      exact ⟨_, Or.inl (Or.inl (Or.inl (Or.inl (Or.inr ⟨by simp [h1, h2], rfl⟩)))),
        rfl, rfl, rfl⟩
  · simp only [checkFingerprintMethods, List.mem_append, mem_if_singleton]
    constructor
    · rintro ⟨s, hs, hname, hfound, hsev⟩
      rcases hs with ((((⟨hc, rfl⟩ | ⟨hc, rfl⟩) | ⟨hc, rfl⟩) | ⟨hc, rfl⟩) | ⟨hc, rfl⟩) | ⟨hc, rfl⟩ <;>
        simp_all
    · rintro ⟨h1, h2⟩
      exact ⟨_, Or.inl (Or.inl (Or.inl (Or.inr ⟨by simp [h1, h2], rfl⟩))),
        rfl, rfl, rfl⟩
  · simp only [checkFingerprintMethods, List.mem_append, mem_if_singleton]
    constructor
    · rintro ⟨s, hs, hname, hfound, hsev⟩
      rcases hs with ((((⟨hc, rfl⟩ | ⟨hc, rfl⟩) | ⟨hc, rfl⟩) | ⟨hc, rfl⟩) | ⟨hc, rfl⟩) | ⟨hc, rfl⟩ <;>
        simp_all
    · rintro h1
      exact ⟨_, Or.inl (Or.inl (Or.inr ⟨h1, rfl⟩)), rfl, rfl, rfl⟩
  · simp only [checkFingerprintMethods, List.mem_append, mem_if_singleton]
    constructor
    · rintro ⟨s, hs, hname, hfound, hsev⟩
      rcases hs with ((((⟨hc, rfl⟩ | ⟨hc, rfl⟩) | ⟨hc, rfl⟩) | ⟨hc, rfl⟩) | ⟨hc, rfl⟩) | ⟨hc, rfl⟩ <;>
        simp_all
    · rintro ⟨h1, h2⟩
      exact ⟨_, Or.inl (Or.inr ⟨by simp [h1, h2], rfl⟩), rfl, rfl, rfl⟩
  · simp only [checkFingerprintMethods, List.mem_append, mem_if_singleton]
    constructor
    · rintro ⟨s, hs, hname, hfound, hsev⟩
      rcases hs with ((((⟨hc, rfl⟩ | ⟨hc, rfl⟩) | ⟨hc, rfl⟩) | ⟨hc, rfl⟩) | ⟨hc, rfl⟩) | ⟨hc, rfl⟩ <;>
        simp_all
    · rintro h1
      exact ⟨_, Or.inr ⟨h1, rfl⟩, rfl, rfl, rfl⟩

/-- C4 witness: with the full bundle and the AliExpress profile, which
declares canvas, a canvas signal with severity high is emitted. -/
theorem c4_fingerprint_gating_witness :
    ∃ s ∈ checkFingerprintMethods fullBundle AliExpressProfile,
      s.name = "Canvas Fingerprinting" ∧ s.found = true ∧ s.severity = Severity.high :=
  (c4_fingerprint_gating fullBundle AliExpressProfile).2.1.mpr ⟨rfl, rfl⟩

theorem mem_insertByRiskDesc {x y : TargetDetectionResult}
    {l : List TargetDetectionResult} :
    y ∈ insertByRiskDesc x l ↔ y = x ∨ y ∈ l := by
  induction l with
  | nil => simp [insertByRiskDesc]
  | cons a l ih =>
    unfold insertByRiskDesc
    split
    · simp
    · simp only [List.mem_cons, ih]
      tauto

theorem mem_sortByRiskDesc {y : TargetDetectionResult}
    {l : List TargetDetectionResult} :
    y ∈ sortByRiskDesc l ↔ y ∈ l := by
  induction l with
  | nil => simp [sortByRiskDesc]
  | cons a l ih =>
    unfold sortByRiskDesc
    rw [mem_insertByRiskDesc, ih]
    simp

theorem sorted_insertByRiskDesc {x : TargetDetectionResult}
    {l : List TargetDetectionResult}
    (h : l.Pairwise (fun a b => b.riskScore ≤ a.riskScore)) :
    (insertByRiskDesc x l).Pairwise (fun a b => b.riskScore ≤ a.riskScore) := by
  induction l with
  | nil => simp [insertByRiskDesc]
  | cons a l ih =>
    rcases List.pairwise_cons.1 h with ⟨ha, hl⟩
    unfold insertByRiskDesc
    split
    · rename_i hle
      refine List.pairwise_cons.2 ⟨?_, h⟩
      intro b hb
      rcases List.mem_cons.1 hb with rfl | hb
      · exact hle
      · exact Nat.le_trans (ha b hb) hle
    · rename_i hgt
      refine List.pairwise_cons.2 ⟨?_, ih hl⟩
      intro b hb
      rcases mem_insertByRiskDesc.1 hb with rfl | hb
      · omega
      · exact ha b hb

theorem sorted_sortByRiskDesc (l : List TargetDetectionResult) :
    (sortByRiskDesc l).Pairwise (fun a b => b.riskScore ≤ a.riskScore) := by
  induction l with
  | nil => simp [sortByRiskDesc]
  | cons a l ih => exact sorted_insertByRiskDesc ih

theorem filter_insertByRiskDesc (x : TargetDetectionResult)
    (l : List TargetDetectionResult) (k : Nat) :
    (insertByRiskDesc x l).filter (fun r => decide (r.riskScore = k))
      = (if x.riskScore = k then [x] else [])
        ++ l.filter (fun r => decide (r.riskScore = k)) := by
  induction l with
  | nil =>
    simp only [insertByRiskDesc]
    split <;> simp_all
  | cons a l ih =>
    unfold insertByRiskDesc
    split
    · rename_i hle
      simp only [List.filter_cons]
      split <;> split <;> simp_all
    · rename_i hgt
      simp only [List.filter_cons, ih]
      split <;> split <;> simp_all

theorem filter_sortByRiskDesc (l : List TargetDetectionResult) (k : Nat) :
    (sortByRiskDesc l).filter (fun r => decide (r.riskScore = k))
      = l.filter (fun r => decide (r.riskScore = k)) := by
  induction l with
  | nil => rfl
  | cons a l ih =>
    unfold sortByRiskDesc
    rw [filter_insertByRiskDesc, ih, List.filter_cons]
    split <;> simp_all

theorem foldl_add_riskScore (l : List TargetDetectionResult) (n : Nat) :
    l.foldl (fun sum r => sum + r.riskScore) n
      = n + (l.map (fun r => r.riskScore)).sum := by
  induction l generalizing n with
  | nil => simp
  | cons a l ih =>
    simp only [List.foldl_cons, List.map_cons, List.sum_cons, ih]
    omega

theorem mem_surfacedResults_iff (fp : FingerprintData) (pc : Option PageContext)
    (p : TargetProfile) (hp : p ∈ ALL_TARGET_PROFILES) :
    detectProfile fp pc p ∈ surfacedResults fp pc ↔
      ((detectProfile fp pc p).detected = true ∨ 20 < (detectProfile fp pc p).confidence) := by
  unfold surfacedResults
  rw [List.mem_filter]
  constructor
  · rintro ⟨-, hc⟩
    simpa using hc
  · intro hc
    exact ⟨List.mem_map_of_mem _ hp, by simpa using hc⟩

/-- C2: a catalog profile's result appears in detectAll's results list
iff it has detected = true or confidence > 20; in particular a result
with detected = false and confidence exactly 20 is excluded, and one
with detected = false and confidence 21 is included. -/
theorem c2_surfacing_rule (fp : FingerprintData) (pc : Option PageContext)
    (p : TargetProfile) (hp : p ∈ ALL_TARGET_PROFILES) :
    (detectProfile fp pc p ∈ (detectAll fp pc).results ↔
      ((detectProfile fp pc p).detected = true ∨ 20 < (detectProfile fp pc p).confidence))
    ∧ ((detectProfile fp pc p).detected = false →
        (detectProfile fp pc p).confidence = 20 →
        detectProfile fp pc p ∉ (detectAll fp pc).results)
    ∧ ((detectProfile fp pc p).detected = false →
        (detectProfile fp pc p).confidence = 21 →
        detectProfile fp pc p ∈ (detectAll fp pc).results) := by
  have hmem : detectProfile fp pc p ∈ (detectAll fp pc).results ↔
      ((detectProfile fp pc p).detected = true ∨ 20 < (detectProfile fp pc p).confidence) := by
    rw [detectAll_results, mem_sortByRiskDesc]
    exact mem_surfacedResults_iff fp pc p hp
  refine ⟨hmem, ?_, ?_⟩
  · intro hdet hconf habs
    rcases hmem.1 habs with h | h
    · rw [hdet] at h
      cases h
    · omega
  · intro hdet hconf
    exact hmem.2 (Or.inr (by omega))

/-- C2 witness: the AliExpress profile against the empty bundle with no
page context is surfaced iff detected or confidence above 20 (here its
confidence is 12 and it is excluded). -/
theorem c2_surfacing_rule_witness :
    detectProfile emptyBundle none AliExpressProfile ∈ (detectAll emptyBundle none).results ↔
      ((detectProfile emptyBundle none AliExpressProfile).detected = true
        ∨ 20 < (detectProfile emptyBundle none AliExpressProfile).confidence) :=
  (c2_surfacing_rule emptyBundle none AliExpressProfile (List.Mem.head _)).1

/-- C6: the totalRiskScore of detectAll equals min(100, sum of the
riskScores of the surfaced results), the sum being taken over the
surfaced results exactly as they are. -/
theorem c6_totalRiskScore_aggregation (fp : FingerprintData) (pc : Option PageContext) :
    (detectAll fp pc).totalRiskScore =
      min 100 (((detectAll fp pc).results.map (fun r => r.riskScore)).sum) := by
  rw [detectAll_totalRiskScore, detectAll_results, foldl_add_riskScore]
  simp

/-- C7: detectAll's results list is non-increasing in riskScore, and
results with equal riskScore keep the order of the pre-sort surfaced
list, which is built in catalog registration order (the sort is
stable). -/
theorem c7_sort_stable (fp : FingerprintData) (pc : Option PageContext) :
    ((detectAll fp pc).results.Pairwise (fun a b => b.riskScore ≤ a.riskScore))
    ∧ ∀ k, (detectAll fp pc).results.filter (fun r => decide (r.riskScore = k))
        = (surfacedResults fp pc).filter (fun r => decide (r.riskScore = k)) := by
  rw [detectAll_results]
  exact ⟨sorted_sortByRiskDesc _, fun k => filter_sortByRiskDesc _ k⟩

-- ============================================================
-- C3: the recommendation generation order
-- ============================================================

/-- The id-keyed lookup table of fixed advisory strings, written to the
amended claim's wording: only the four catalog ids aliexpress, facebook,
google and tiktok have id-specific advisories; amazon (and any unknown
id) has none. -/
def idSpecificAdvisories : String → List String
  | "aliexpress" =>
    ["AliExpress передаёт данные в Китай без согласия — используйте VPN",
     "Отключите WebRTC для предотвращения утечки IP"]
  | "facebook" =>
    ["Установите Facebook Container (Mozilla) для изоляции",
     "Используйте uBlock Origin с фильтрами Facebook"]
  | "google" =>
    ["Войдите в Google Account → Данные и конфиденциальность → Отключите отслеживание",
     "Используйте альтернативы: DuckDuckGo, Startpage"]
  | "tiktok" =>
    ["TikTok требует обширных разрешений — ограничьте доступ",
     "Запретите доступ к буферу обмена и сенсорам"]
  | _ => []

/-- The countermeasure-flag advisories of the claim, in the fixed order
container, domain-block, cookie-clear, fingerprint-spoof. -/
def countermeasureAdvisories (p : TargetProfile) : List String :=
  (if p.countermeasures.useContainer then
    ["Используйте Firefox Container для изоляции " ++ p.name]
   else [])
  ++ (if p.countermeasures.blockDomains then
    ["Заблокируйте домены: " ++
      joinWith ", " (p.trackingInfra.primaryDomains.take 3)]
   else [])
  ++ (if p.countermeasures.clearCookies then
    ["Регулярно очищайте cookies " ++ p.name]
   else [])
  ++ (if p.countermeasures.spoofFingerprint then
    ["Рассмотрите spoofing fingerprint для защиты от " ++ p.name]
   else [])

/-- The critical-signal summary of the claim: one entry iff some found
signal has severity critical. -/
def criticalSummary (signals : List DetectionSignal) : List String :=
  let criticalSignals :=
    signals.filter (fun s => decide (s.severity = Severity.critical) && s.found)
  if 0 < criticalSignals.length then
    ["⚠️ Критические трекеры обнаружены: " ++
      joinWith ", " (criticalSignals.map (fun s => s.name))]
  else []

/-- The recommendation generation sequence of the (amended) claim:
countermeasure advisories, then the critical-signal summary, then the
id-specific advisories. -/
def recommendationSequence (p : TargetProfile)
    (signals : List DetectionSignal) : List String :=
  countermeasureAdvisories p ++ criticalSummary signals ++ idSpecificAdvisories p.id

/-- C3 counterexample: the Amazon profile (one of the five catalog ids)
receives no amazon-specific advisory strings — the recommendation switch
has no amazon case.  With an empty bundle and no page context only the
two countermeasure advisories are generated (a list of length 2, so no
truncation hides anything), contradicting the claim that all five known
catalog ids contribute id-specific fixed advisory strings. -/
theorem c3_counterexample :
    (detectProfile emptyBundle none AmazonProfile).recommendations
      = ["Заблокируйте домены: amazon.com, amazon-adsystem.com, amazonaws.com",
         "Регулярно очищайте cookies Amazon"]
    ∧ AmazonProfile.id = "amazon"
    ∧ AmazonProfile ∈ ALL_TARGET_PROFILES := by
  refine ⟨?_, rfl, by decide⟩
  rfl

/-- C3 amended: recommendations are generated as countermeasure-flag
advisories (container, domain-block, cookie-clear, fingerprint-spoof, in
that order), then a critical-signal summary if any found signal with
severity critical exists, then profile-id-specific fixed advisory
strings for the four catalog ids aliexpress, facebook, google and tiktok
(amazon has none), and the returned list is the first 5 entries of that
sequence with no re-sorting. -/
theorem c3_recommendation_order (fp : FingerprintData) (pc : Option PageContext)
    (p : TargetProfile) :
    (detectProfile fp pc p).recommendations
      = (recommendationSequence p (allProfileSignals fp pc p)).take 5
    ∧ idSpecificAdvisories "amazon" = [] := by
  constructor
  · rw [detectProfile_recommendations]
    unfold generateRecommendations recommendationSequence countermeasureAdvisories
      criticalSummary idSpecificAdvisories
    rcases p with ⟨pid, _, _, _, _, _, _, _, _⟩
    rfl
  · rfl

-- ============================================================
-- C10: catalog profiles always produce evidence
-- ============================================================

theorem checkDomains_length (pc : Option PageContext) (p : TargetProfile) :
    (checkDomains pc p).length =
      p.trackingInfra.primaryDomains.length
        + p.trackingInfra.thirdPartyTrackers.length := by
  simp [checkDomains]

theorem checkScripts_length (pc : Option PageContext) (p : TargetProfile) :
    (checkScripts pc p).length = p.trackingInfra.jsLibraries.length := by
  simp [checkScripts]

theorem checkFingerprintMethods_length_le (fp : FingerprintData) (p : TargetProfile) :
    (checkFingerprintMethods fp p).length ≤ 6 := by
  unfold checkFingerprintMethods
  dsimp only
  split_ifs <;> simp

theorem checkStorageKeys_length_le (fp : FingerprintData) (p : TargetProfile) :
    (checkStorageKeys fp p).length ≤ 10 := by
  unfold checkStorageKeys
  split
  · simp only [List.length_map, List.length_take]
    omega
  · simp

theorem allProfileSignals_length_le (fp : FingerprintData) (pc : Option PageContext)
    (p : TargetProfile) :
    (allProfileSignals fp pc p).length ≤
      p.trackingInfra.primaryDomains.length
        + p.trackingInfra.thirdPartyTrackers.length
        + p.trackingInfra.jsLibraries.length + 16 := by
  unfold allProfileSignals
  simp only [List.length_append, checkDomains_length, checkScripts_length]
  have h1 := checkFingerprintMethods_length_le fp p
  have h2 := checkStorageKeys_length_le fp p
  omega

theorem two_le_found_fingerprint (fp : FingerprintData) (p : TargetProfile)
    (hf : p.fingerprintMethods.fonts = true)
    (hb : p.fingerprintMethods.behavioral = true) :
    2 ≤ ((checkFingerprintMethods fp p).filter (fun s => s.found)).length := by
  have hself : (checkFingerprintMethods fp p).filter (fun s => s.found)
      = checkFingerprintMethods fp p := by
    rw [List.filter_eq_self]
    intro s hs
    simp [checkFingerprintMethods_found fp p s hs]
  rw [hself]
  unfold checkFingerprintMethods
  simp only [hf, hb, if_true, List.length_append]
  simp
  omega

theorem catalog_profile_evidence (fp : FingerprintData) (pc : Option PageContext)
    (p : TargetProfile) (hf : p.fingerprintMethods.fonts = true)
    (hb : p.fingerprintMethods.behavioral = true)
    (hlen : (allProfileSignals fp pc p).length ≤ 41) :
    2 ≤ ((checkFingerprintMethods fp p).filter (fun s => s.found)).length
    ∧ 10 ≤ (detectProfile fp pc p).riskScore
    ∧ 0 < (detectProfile fp pc p).confidence := by
  have h2 := two_le_found_fingerprint fp p hf hb
  refine ⟨h2, ?_, ?_⟩
  · rw [detectProfile_riskScore]
    omega
  · rw [detectProfile_confidence]
    have hactive : 2 ≤ ((allProfileSignals fp pc p).filter (fun s => s.found)).length := by
      unfold allProfileSignals
      simp only [List.filter_append, List.length_append]
      omega
    have hlen2 : 2 ≤ (allProfileSignals fp pc p).length :=
      Nat.le_trans hactive (List.length_filter_le _ _)
    rw [if_neg (by omega)]
    exact jsConfidence_pos (by omega) (List.length_filter_le _ _) (by omega)

/-- C10: for every bundle and page context, each of the five catalog
profiles yields at least two found fingerprint signals (fonts and
behavioral are declared true on all of them and emitted
unconditionally), hence a riskScore of at least 10 and a confidence
strictly greater than 0: the engine never reports zero evidence for a
catalog profile. -/
theorem c10_nonzero_evidence (fp : FingerprintData) (pc : Option PageContext)
    (p : TargetProfile) (hp : p ∈ ALL_TARGET_PROFILES) :
    2 ≤ ((checkFingerprintMethods fp p).filter (fun s => s.found)).length
    ∧ 10 ≤ (detectProfile fp pc p).riskScore
    ∧ 0 < (detectProfile fp pc p).confidence := by
  simp only [ALL_TARGET_PROFILES, List.mem_cons, List.not_mem_nil, or_false] at hp
  rcases hp with rfl | rfl | rfl | rfl | rfl <;>
    exact catalog_profile_evidence fp pc _ rfl rfl
      (Nat.le_trans (allProfileSignals_length_le fp pc _) (by decide))

/-- C10 witness: the AliExpress profile with the empty bundle and no
page context still carries two found fingerprint signals, riskScore at
least 10 and positive confidence. -/
theorem c10_nonzero_evidence_witness :
    2 ≤ ((checkFingerprintMethods emptyBundle AliExpressProfile).filter
      (fun s => s.found)).length
    ∧ 10 ≤ (detectProfile emptyBundle none AliExpressProfile).riskScore
    ∧ 0 < (detectProfile emptyBundle none AliExpressProfile).confidence :=
  c10_nonzero_evidence emptyBundle none AliExpressProfile (List.Mem.head _)

end EchoPrint
